import Mathlib

/-!
# Verification of the Terminal Session Manager

A shallow embedding of `src/backend/app/services/terminal_manager.py`
(class `TerminalManager`) together with the configuration constants of
`src/backend/app/config.py`, and proofs of the specification's claims
about it.

Modelling conventions:
* Python dicts (`active_terminals`, `output_tasks`, `subscribers`) are
  association lists keyed by the terminal id, with `lookupA` / `setA` /
  `popA` mirroring `d.get`, `d[k] = v` and `d.pop(k, None)`.
* A Python `set` of subscriber queues is a duplicate-free list of queue
  identifiers (`Nat`); `set.add` is `insertQ`, `set.discard` is a filter.
* asyncio tasks are identified by `Nat` task ids; `task.cancel()` is
  modelled by recording the id in the `cancelled` list of the state.
* The SQLAlchemy `Terminal` table is an association list from id to a
  `DbTerminal` record (timestamps omitted: they carry no claim content).
* Fallible operations return `Except TMError _`; the Python exceptions
  map as follows: `ValueError` for a full registry / full subscriber set
  becomes `LimitExceeded`, `ValueError` for validation failures becomes
  `InvalidInput`, `RuntimeError` from an `OSError` during
  `create_subprocess_exec` becomes `SpawnFailure`, `ValueError` from
  `stop` on an unknown id becomes `NotFound`, and the `RuntimeError`
  raised when the database insert fails becomes `DbFailure`.
* Effects of the outside world (whitelist membership, path validation,
  directory existence, launch success, database success, the fresh uuid,
  pid and task handles) enter `spawn` through an explicit `SpawnEnv`.
-/

/-- Decidable equality of `Except` results, so concrete runs can be
checked by `decide`. -/
instance {ε α : Type} [DecidableEq ε] [DecidableEq α] :
    DecidableEq (Except ε α) := fun a b =>
  match a, b with
  | .error e, .error f =>
      if h : e = f then .isTrue (congrArg Except.error h)
      else .isFalse (fun hh => h (Except.error.inj hh))
  | .ok x, .ok y =>
      if h : x = y then .isTrue (congrArg Except.ok h)
      else .isFalse (fun hh => h (Except.ok.inj hh))
  | .error _, .ok _ => .isFalse (fun hh => Except.noConfusion hh)
  | .ok _, .error _ => .isFalse (fun hh => Except.noConfusion hh)

namespace TerminalManager

/-! ## Configuration (src/backend/app/config.py, default values) -/

/-- `Config.MAX_TERMINALS` (default 10): cap on concurrent sessions. -/
def MAX_TERMINALS : Nat := 10

/-- `Config.MAX_SUBSCRIBERS_PER_TERMINAL` (default 5). -/
def MAX_SUBSCRIBERS_PER_TERMINAL : Nat := 5

/-- `Config.OUTPUT_QUEUE_SIZE` (default 1000): per-subscriber queue bound. -/
def OUTPUT_QUEUE_SIZE : Nat := 1000

/-! ## Association-list helpers (Python dict semantics) -/

/-- `d.get(k)` / `d[k]` lookup on an association list. -/
def lookupA {α : Type} : List (String × α) → String → Option α
  | [], _ => none
  | (k, v) :: rest, key => if key = k then some v else lookupA rest key

/-- `d[k] = v`: replace the binding in place if present, else append. -/
def setA {α : Type} : List (String × α) → String → α → List (String × α)
  | [], key, v => [(key, v)]
  | (k, w) :: rest, key, v =>
      if key = k then (key, v) :: rest else (k, w) :: setA rest key v

/-- `d.pop(k, None)`: drop every binding of the key. -/
def popA {α : Type} (m : List (String × α)) (key : String) : List (String × α) :=
  m.filter (fun p => p.1 ≠ key)

/-! ## Output messages -/

/-- The broadcast message dict (timestamp field omitted). Built at
`_capture_output` (type "stdout"/"stderr", with `line`) and at
`_monitor_process` (type "status", with `status` and `exit_code`). -/
structure Message where
  terminal_id : String
  type : String
  line : Option String
  status : Option String
  exit_code : Option Int
  deriving DecidableEq

/-- Python `str.strip()`: remove leading and trailing whitespace,
modelled on the character list of the string. -/
def pyStrip (s : String) : String :=
  ⟨((s.data.dropWhile Char.isWhitespace).reverse.dropWhile Char.isWhitespace).reverse⟩

/-- One iteration of the `_capture_output` loop body on a decoded line:
`decoded_line = line.decode(encoding, errors=replace).strip()`, and
lines that are empty after stripping are skipped (`continue`). We model
the already-decoded text of each line. -/
def processLine (decoded : String) : Option String :=
  let d := pyStrip decoded
  if d = "" then none else some d

/-- `_capture_output`: reads lines until EOF, broadcasting one message
per non-blank stripped line, in reading order. -/
def captureOutput (terminal_id : String) (lines : List String)
    (stream_type : String) : List Message :=
  lines.filterMap (fun l =>
    (processLine l).map (fun d =>
      { terminal_id := terminal_id, type := stream_type, line := some d,
        status := none, exit_code := none }))

/-- The final status message built by `_monitor_process` after
`process.wait()` returns. -/
def statusMessage (terminal_id : String) (exit_code : Int) : Message :=
  { terminal_id := terminal_id, type := "status", line := none,
    status := some "stopped", exit_code := some exit_code }

/-- `_broadcast` enqueue to one subscriber queue:
`asyncio.wait_for(queue.put(message), timeout=QUEUE_TIMEOUT)`. A `put`
on a queue with fewer than `OUTPUT_QUEUE_SIZE` entries completes at
once; on a full queue (no consumer draining it) the enqueue times out
and the message is dropped for that subscriber. -/
def enqueue (q : List Message) (m : Message) : List Message :=
  if q.length < OUTPUT_QUEUE_SIZE then q ++ [m] else q

/-- Pump a stream's lines into one subscriber queue: each message
produced by `_capture_output` is offered to the queue in order. -/
def pumpToQueue (terminal_id : String) (lines : List String)
    (stream_type : String) (q : List Message) : List Message :=
  (captureOutput terminal_id lines stream_type).foldl enqueue q

/-! ## Manager state -/

/-- Errors surfaced by the manager (see the module comment for the map
from Python exception sites). -/
inductive TMError where
  | LimitExceeded
  | InvalidInput
  | SpawnFailure
  | NotFound
  | DbFailure
  deriving DecidableEq

/-- The mutable state of a `TerminalManager` instance:
`self.active_terminals : Dict[str, Process]` (a process modelled by its
pid), `self.output_tasks : Dict[str, List[Task]]`,
`self.subscribers : Dict[str, Set[Queue]]`, plus the set of asyncio
task ids on which `.cancel()` has been called. -/
structure TM where
  active_terminals : List (String × Nat)
  output_tasks : List (String × List Nat)
  subscribers : List (String × List Nat)
  cancelled : List Nat
  deriving DecidableEq

/-- The manager state produced by `TerminalManager.__init__`. -/
def initTM : TM :=
  { active_terminals := [], output_tasks := [], subscribers := [],
    cancelled := [] }

/-- A row of the `terminals` table as written by `spawn` / updated by
`_monitor_process` and `stop` (timestamps omitted). -/
structure DbTerminal where
  id : String
  project_id : String
  pid : Nat
  working_dir : String
  status : String
  deriving DecidableEq

/-- The `terminals` table, keyed by terminal id. -/
abbrev Db := List (String × DbTerminal)

/-- Outside-world inputs to one `spawn` call: the results of the
whitelist check, `config.validate_path`, `os.path.exists`, whether
`create_subprocess_exec` raises `OSError`, whether the database commit
succeeds, and the fresh uuid, pid and the three task handles that
`_start_output_capture` creates. -/
structure SpawnEnv where
  commandAllowed : Bool
  pathValid : Bool
  dirExists : Bool
  launchOk : Bool
  dbOk : Bool
  newId : String
  newPid : Nat
  taskIds : List Nat
  deriving DecidableEq

/-- `TerminalManager.spawn`, sequential execution (a single call run to
completion; the interleaved semantics of the two separate lock
acquisitions is `SpawnStep` below). Order of checks follows the source:
capacity (under the lock), command whitelist, path validation,
directory existence, process launch; then the registry insert (under
the lock again), the database insert with its rollback path, and
`_start_output_capture` storing the three tasks. -/
def spawn (st : TM) (db : Db) (project_id working_dir : String)
    (env : SpawnEnv) : TM × Db × Except TMError DbTerminal :=
  if st.active_terminals.length ≥ MAX_TERMINALS then
    (st, db, .error .LimitExceeded)
  else if ¬ env.commandAllowed then (st, db, .error .InvalidInput)
  else if ¬ env.pathValid then (st, db, .error .InvalidInput)
  else if ¬ env.dirExists then (st, db, .error .InvalidInput)
  else if ¬ env.launchOk then
    -- OSError from create_subprocess_exec: nothing was inserted yet,
    -- the handler re-raises as RuntimeError without touching state.
    (st, db, .error .SpawnFailure)
  else
    let st1 : TM :=
      { st with
        active_terminals := setA st.active_terminals env.newId env.newPid,
        subscribers := setA st.subscribers env.newId [] }
    if ¬ env.dbOk then
      -- db.add/commit failed: the process is killed and the id popped
      -- from active_terminals (the subscribers entry is left behind).
      ({ st1 with active_terminals := popA st1.active_terminals env.newId },
        db, .error .DbFailure)
    else
      let term : DbTerminal :=
        { id := env.newId, project_id := project_id, pid := env.newPid,
          working_dir := working_dir, status := "active" }
      let st2 : TM :=
        { st1 with output_tasks := setA st1.output_tasks env.newId env.taskIds }
      (st2, setA db env.newId term, .ok term)

/-- `TerminalManager.stop`. Under the lock: look up the process (absent
id raises `ValueError` — `NotFound`), terminate/kill it (failures are
caught and logged), pop the id from `active_terminals`, cancel every
task in `output_tasks[terminal_id]` and pop that entry; then update the
database row to stopped. The returned message list is the set of
broadcasts this call performs: `stop` contains no `_broadcast` call,
and the monitor task — blocked on the lock `stop` holds — is cancelled
before it can broadcast, so the list is empty. -/
def stop (st : TM) (db : Db) (terminal_id : String) :
    TM × Db × List Message × Except TMError Unit :=
  match lookupA st.active_terminals terminal_id with
  | none => (st, db, [], .error .NotFound)
  | some _pid =>
    let st1 : TM :=
      { st with active_terminals := popA st.active_terminals terminal_id }
    let st2 : TM :=
      match lookupA st1.output_tasks terminal_id with
      | some tasks =>
        { st1 with cancelled := st1.cancelled ++ tasks,
                   output_tasks := popA st1.output_tasks terminal_id }
      | none => st1
    let db1 : Db :=
      match lookupA db terminal_id with
      | some t => setA db terminal_id { t with status := "stopped" }
      | none => db
    (st2, db1, [], .ok ())

/-- `TerminalManager._monitor_process`, natural-exit path: after
`process.wait()` returns, pop the id from `active_terminals` (under the
lock), update the database row to stopped, and broadcast exactly one
status message. The monitor does not touch `output_tasks` or
`subscribers` and cancels nothing. -/
def monitorExit (st : TM) (db : Db) (terminal_id : String)
    (exit_code : Int) : TM × Db × List Message :=
  let st1 : TM :=
    { st with active_terminals := popA st.active_terminals terminal_id }
  let db1 : Db :=
    match lookupA db terminal_id with
    | some t => setA db terminal_id { t with status := "stopped" }
    | none => db
  (st1, db1, [statusMessage terminal_id exit_code])

/-- Python `set.add` on the modelled subscriber set. -/
def insertQ (s : List Nat) (q : Nat) : List Nat :=
  if q ∈ s then s else s ++ [q]

/-- `TerminalManager.subscribe`: under the lock, read the current
subscriber count with `self.subscribers.get(terminal_id, set())` —
no existence check against `active_terminals` — raise `ValueError`
(`LimitExceeded`) at the cap, else create a fresh queue `q` and add it
to the (possibly freshly created) set for this id. -/
def subscribe (st : TM) (terminal_id : String) (q : Nat) :
    TM × Except TMError Nat :=
  let current := (lookupA st.subscribers terminal_id).getD []
  if current.length ≥ MAX_SUBSCRIBERS_PER_TERMINAL then
    (st, .error .LimitExceeded)
  else
    ({ st with subscribers := setA st.subscribers terminal_id (insertQ current q) },
      .ok q)

/-- `TerminalManager.unsubscribe`: under the lock, if the id has a
subscriber set, `discard` the queue from it; no error in any case. -/
def unsubscribe (st : TM) (terminal_id : String) (q : Nat) : TM :=
  match lookupA st.subscribers terminal_id with
  | none => st
  | some s =>
    { st with subscribers := setA st.subscribers terminal_id (s.filter (fun x => x ≠ q)) }

/-- The pid, running flag and resource fields of a `get_status` result
(the psutil cpu/memory readings are outside the model). -/
structure StatusSnapshot where
  id : String
  project_id : String
  working_dir : String
  status : String
  pid : Option Nat
  deriving DecidableEq

/-- `TerminalManager.get_status`: query the database via `self.get`;
a missing row yields the error dict (`NotFound`), otherwise a snapshot
built from the row, with process fields added when the id is still in
`active_terminals`. -/
def get_status (st : TM) (db : Db) (terminal_id : String) :
    Except TMError StatusSnapshot :=
  match lookupA db terminal_id with
  | none => .error .NotFound
  | some t =>
    .ok { id := t.id, project_id := t.project_id,
          working_dir := t.working_dir, status := t.status,
          pid := (lookupA st.active_terminals terminal_id).map (fun _ => t.pid) }

/-- All task ids held in `output_tasks`. -/
def allTasks (st : TM) : List Nat :=
  st.output_tasks.foldl (fun acc p => acc ++ p.2) []

/-- `TerminalManager.cleanup`: under the lock, terminate every active
process (each failure caught and logged — `fails id` records whether
termination of `id` failed; the sweep continues regardless), then
`active_terminals.clear()`, `subscribers.clear()`, cancel every task of
every `output_tasks` entry, and `output_tasks.clear()`. -/
def cleanup (st : TM) (fails : String → Bool) : TM :=
  let _sweep := st.active_terminals.map (fun p => fails p.1)
  { active_terminals := [], subscribers := [], output_tasks := [],
    cancelled := st.cancelled ++ allTasks st }

/-! ## Interleaved spawns

`spawn` touches the registry in two separate critical sections: the
capacity check (`async with self._lock` at the top of `spawn`) and,
after validation and `create_subprocess_exec` — both awaited outside
the lock — the insertion (`async with self._lock` around
`self.active_terminals[terminal_id] = process`). The model below makes
each critical section one atomic step and lets several concurrent
`spawn` calls interleave between them, which is exactly what the
released lock permits at the `await` points in between. -/

/-- Where one in-flight `spawn` call stands: before the capacity check,
past a successful check (lock released, launching the process), after
failing the check with `LimitExceeded`, or after the insertion. -/
inductive SpawnPhase where
  | ready
  | checked
  | failed
  | inserted
  deriving DecidableEq

/-- One in-flight `spawn` call and the fresh id it will insert. -/
structure SpawnThread where
  tid : String
  phase : SpawnPhase
  deriving DecidableEq

/-- Registry ids plus the in-flight `spawn` calls. -/
structure CState where
  active : List String
  threads : List SpawnThread
  deriving DecidableEq

/-- One atomic critical section of some in-flight `spawn` call, with
the session cap `maxSessions` (`config.MAX_TERMINALS`):
`check_pass`/`check_fail` is the first `async with self._lock` block,
`insert` is the second. -/
inductive SpawnStep (maxSessions : Nat) : CState → CState → Prop where
  | check_pass (s : CState) (i : Nat) (hi : i < s.threads.length)
      (hp : (s.threads.get ⟨i, hi⟩).phase = .ready)
      (hcap : s.active.length < maxSessions) :
      SpawnStep maxSessions s
        { s with threads :=
            s.threads.set i { s.threads.get ⟨i, hi⟩ with phase := .checked } }
  | check_fail (s : CState) (i : Nat) (hi : i < s.threads.length)
      (hp : (s.threads.get ⟨i, hi⟩).phase = .ready)
      (hcap : maxSessions ≤ s.active.length) :
      SpawnStep maxSessions s
        { s with threads :=
            s.threads.set i { s.threads.get ⟨i, hi⟩ with phase := .failed } }
  | insert (s : CState) (i : Nat) (hi : i < s.threads.length)
      (hp : (s.threads.get ⟨i, hi⟩).phase = .checked) :
      SpawnStep maxSessions s
        { active := (s.threads.get ⟨i, hi⟩).tid :: s.active,
          threads :=
            s.threads.set i { s.threads.get ⟨i, hi⟩ with phase := .inserted } }

/-- Reachability by interleaved spawn critical sections. -/
def SpawnReach (maxSessions : Nat) : CState → CState → Prop :=
  Relation.ReflTransGen (SpawnStep maxSessions)

/-! ## Whole-session scenarios -/

/-- A whole session ending in natural process exit, run in the schedule
where the pumps drain their pipes to EOF and then the monitor observes
the exit: the pumps broadcast their line messages, then
`_monitor_process` pops the registry entry, updates the database and
broadcasts the status message. Returns the final manager state, the
database, and the full broadcast log in order. -/
def naturalExitRun (st : TM) (db : Db) (terminal_id : String)
    (stdoutLines stderrLines : List String) (exit_code : Int) :
    TM × Db × List Message :=
  let pumpMsgs :=
    captureOutput terminal_id stdoutLines "stdout"
      ++ captureOutput terminal_id stderrLines "stderr"
  let r := monitorExit st db terminal_id exit_code
  (r.1, r.2.1, pumpMsgs ++ r.2.2)

/-- A concrete successful `spawn` environment: every external check
passes, the fresh id is `t1`, the process gets pid 42 and the three
capture tasks get ids 0 (stdout pump), 1 (stderr pump), 2 (monitor). -/
def demoEnv : SpawnEnv :=
  { commandAllowed := true, pathValid := true, dirExists := true,
    launchOk := true, dbOk := true, newId := "t1", newPid := 42,
    taskIds := [0, 1, 2] }

/-- The result of spawning `t1` from the initial manager state. -/
def demoSpawn : TM × Db × Except TMError DbTerminal :=
  spawn initTM [] "p1" "w1" demoEnv

/-- Manager state right after the demo spawn. -/
def demoState : TM := demoSpawn.1

/-- Database right after the demo spawn. -/
def demoDb : Db := demoSpawn.2.1

/-- Manager/database state after the demo session's process exits
naturally with code 0 and the monitor finishes. -/
def demoAfterExit : TM × Db × List Message :=
  monitorExit demoState demoDb "t1" 0

/-! ## Helper lemmas about the dict operations -/

theorem lookupA_setA_self {α : Type} (m : List (String × α)) (k : String)
    (v : α) : lookupA (setA m k v) k = some v := by
  induction m with
  | nil => simp [setA, lookupA]
  | cons p rest ih =>
    obtain ⟨k1, v1⟩ := p
    by_cases h : k = k1
    · simp [setA, h, lookupA]
    · simp [setA, h, lookupA, ih]

theorem lookupA_popA_self {α : Type} (m : List (String × α)) (k : String) :
    lookupA (popA m k) k = none := by
  induction m with
  | nil => simp [popA, lookupA]
  | cons p rest ih =>
    obtain ⟨k1, v1⟩ := p
    simp only [popA] at ih ⊢
    by_cases h : k1 = k
    · rw [List.filter_cons_of_neg]
      · exact ih
      · simp [h]
    · rw [List.filter_cons_of_pos]
      · rw [lookupA, if_neg (fun hh => h hh.symm)]
        exact ih
      · simp [h]

theorem setA_length {α : Type} (m : List (String × α)) (k : String) (v : α) :
    (setA m k v).length ≤ m.length + 1 := by
  induction m with
  | nil => simp [setA]
  | cons p rest ih =>
    obtain ⟨k1, v1⟩ := p
    by_cases h : k = k1
    · simp [setA, h]
    · simp only [setA, if_neg h, List.length_cons]
      omega

theorem popA_length {α : Type} (m : List (String × α)) (k : String) :
    (popA m k).length ≤ m.length :=
  List.length_filter_le _ m

theorem setA_setA {α : Type} (m : List (String × α)) (k : String) (v w : α) :
    setA (setA m k v) k w = setA m k w := by
  induction m with
  | nil => simp [setA]
  | cons p rest ih =>
    obtain ⟨k1, v1⟩ := p
    by_cases h : k = k1
    · simp [setA, h]
    · simp [setA, h, ih]

theorem filter_ne_idem (s : List Nat) (q : Nat) :
    (s.filter (fun x => x ≠ q)).filter (fun x => x ≠ q)
      = s.filter (fun x => x ≠ q) := by
  induction s with
  | nil => rfl
  | cons a s ih =>
    by_cases h : a = q
    · simp [List.filter, h, ih]
    · simp [List.filter, h, ih]

theorem insertQ_length (s : List Nat) (q : Nat) :
    (insertQ s q).length ≤ s.length + 1 := by
  unfold insertQ
  split
  · omega
  · simp

/-- Every message a pump produces carries the pump's stream type and
terminal id. -/
theorem captureOutput_fields (tid : String) (lines : List String)
    (stype : String) :
    ∀ m ∈ captureOutput tid lines stype,
      m.type = stype ∧ m.terminal_id = tid := by
  intro m hm
  simp only [captureOutput, List.mem_filterMap] at hm
  obtain ⟨l, _, hl⟩ := hm
  cases h : processLine l with
  | none => simp [h] at hl
  | some d =>
    simp only [h, Option.map_some'] at hl
    cases hl
    exact ⟨rfl, rfl⟩

/-- Offering messages to a queue with enough free space appends them
all, in order. -/
theorem foldl_enqueue (ms : List Message) : ∀ q : List Message,
    q.length + ms.length ≤ OUTPUT_QUEUE_SIZE →
    ms.foldl enqueue q = q ++ ms := by
  induction ms with
  | nil => intro q _; simp
  | cons m ms ih =>
    intro q h
    have hq : q.length < OUTPUT_QUEUE_SIZE := by
      simp only [List.length_cons] at h
      omega
    have hstep : enqueue q m = q ++ [m] := by simp [enqueue, hq]
    calc (m :: ms).foldl enqueue q = ms.foldl enqueue (q ++ [m]) := by
          simp [List.foldl, hstep]
      _ = (q ++ [m]) ++ ms := by
          refine ih (q ++ [m]) ?_
          simp only [List.length_append, List.length_cons,
            List.length_nil] at h ⊢
          omega
      _ = q ++ (m :: ms) := by simp

/-! ## More helper lemmas -/

/-- After a successful lookup, `stop` leaves `active_terminals` with
the entry popped, whatever `output_tasks` held. -/
theorem stop_active (st : TM) (db : Db) (tid : String) (pid : Nat)
    (hact : lookupA st.active_terminals tid = some pid) :
    (stop st db tid).1.active_terminals = popA st.active_terminals tid := by
  simp only [stop, hact]
  cases lookupA st.output_tasks tid <;> rfl

/-- `stop` on an id absent from `active_terminals` changes nothing and
reports `NotFound`. -/
theorem stop_notfound (st : TM) (db : Db) (tid : String)
    (h : lookupA st.active_terminals tid = none) :
    stop st db tid = (st, db, [], .error .NotFound) := by
  simp only [stop, h]

/-! ## Claims -/

/-- States of the interleaving counterexample for C1: an empty registry
with the session cap set to one, and two `spawn` calls in flight that
will insert ids `A` and `B`. -/
def c1_init : CState :=
  { active := [], threads := [⟨"A", .ready⟩, ⟨"B", .ready⟩] }

/-- After the first spawn call passed its capacity check. -/
def c1_s1 : CState :=
  { active := [], threads := [⟨"A", .checked⟩, ⟨"B", .ready⟩] }

/-- After both spawn calls passed their capacity checks — the lock was
released between each call's check and its insertion. -/
def c1_s2 : CState :=
  { active := [], threads := [⟨"A", .checked⟩, ⟨"B", .checked⟩] }

/-- After the first spawn call inserted its entry. -/
def c1_s3 : CState :=
  { active := ["A"], threads := [⟨"A", .inserted⟩, ⟨"B", .checked⟩] }

/-- After the second spawn call inserted: two sessions, cap one. -/
def c1_final : CState :=
  { active := ["B", "A"], threads := [⟨"A", .inserted⟩, ⟨"B", .inserted⟩] }

/-- C1 counterexample: with `MaxSessions = 1`, two interleaved `spawn`
calls both pass the capacity check before either inserts — the check
and the insertion are in separate critical sections of the registry
lock — and the registry ends with two active sessions, exceeding the
cap. -/
theorem C1_counterexample :
    SpawnReach 1 c1_init c1_final ∧ 1 < c1_final.active.length := by
  refine ⟨?_, by decide⟩
  have h1 : SpawnStep 1 c1_init c1_s1 :=
    SpawnStep.check_pass c1_init 0 (by decide) (by decide) (by decide)
  have h2 : SpawnStep 1 c1_s1 c1_s2 :=
    SpawnStep.check_pass c1_s1 1 (by decide) (by decide) (by decide)
  have h3 : SpawnStep 1 c1_s2 c1_s3 :=
    SpawnStep.insert c1_s2 0 (by decide) (by decide)
  have h4 : SpawnStep 1 c1_s3 c1_final :=
    SpawnStep.insert c1_s3 1 (by decide) (by decide)
  exact Relation.ReflTransGen.head h1 (Relation.ReflTransGen.head h2
    (Relation.ReflTransGen.head h3 (Relation.ReflTransGen.single h4)))

/-- A sequential `spawn` call either leaves `active_terminals` exactly
as it was (every error branch except the database rollback) or ran with
the registry strictly below the cap and grew it by at most one entry
(success, or the database-failure rollback that pops the id again). -/
theorem spawn_active_cases (st : TM) (db : Db)
    (project_id working_dir : String) (env : SpawnEnv) :
    (spawn st db project_id working_dir env).1.active_terminals
        = st.active_terminals
    ∨ (st.active_terminals.length < MAX_TERMINALS
        ∧ (spawn st db project_id working_dir env).1.active_terminals.length
            ≤ st.active_terminals.length + 1) := by
  simp only [spawn]
  split_ifs
  all_goals try exact Or.inl rfl
  all_goals refine Or.inr ⟨by omega, ?_⟩
  all_goals
    dsimp only
    have hs := setA_length st.active_terminals env.newId env.newPid
    have hp := popA_length
      (setA st.active_terminals env.newId env.newPid) env.newId
    omega

/-- C1 (amended): for sequential `spawn` calls — each call running to
completion before the next — the session count never exceeds
`MaxSessions`, and a call made at capacity fails with `LimitExceeded`
leaving manager state and database unchanged. The capacity check is
not atomic with the insertion: the lock is released between the two
critical sections, so interleaved calls can exceed the cap (see the
counterexample). -/
theorem C1_sequential_cap (st : TM) (db : Db)
    (project_id working_dir : String) (env : SpawnEnv)
    (hinv : st.active_terminals.length ≤ MAX_TERMINALS) :
    (st.active_terminals.length = MAX_TERMINALS →
      spawn st db project_id working_dir env
        = (st, db, .error .LimitExceeded))
    ∧ (spawn st db project_id working_dir env).1.active_terminals.length
        ≤ MAX_TERMINALS := by
  constructor
  · intro hfull
    simp only [spawn]
    rw [if_pos (le_of_eq hfull.symm)]
  · rcases spawn_active_cases st db project_id working_dir env with h | ⟨h9, h10⟩
    · rw [h]
      exact hinv
    · omega

/-- A registry already holding `MAX_TERMINALS` sessions, for the C1
witness. -/
def fullState : TM :=
  { active_terminals :=
      [("a0", 0), ("a1", 1), ("a2", 2), ("a3", 3), ("a4", 4),
        ("a5", 5), ("a6", 6), ("a7", 7), ("a8", 8), ("a9", 9)],
    output_tasks := [], subscribers := [], cancelled := [] }

/-- Witness for C1 (amended): a spawn against a full registry fails
with `LimitExceeded` and the count stays at the cap. -/
theorem C1_witness :
    (fullState.active_terminals.length = MAX_TERMINALS →
      spawn fullState [] "p1" "w1" demoEnv
        = (fullState, [], .error .LimitExceeded))
    ∧ (spawn fullState [] "p1" "w1" demoEnv).1.active_terminals.length
        ≤ MAX_TERMINALS :=
  C1_sequential_cap fullState [] "p1" "w1" demoEnv (by decide)

/-- C2 counterexample: stopping the live demo session succeeds and
removes it, yet broadcasts zero status messages — the claim requires
exactly one final status message whenever a session reaches Stopped.
`stop` contains no broadcast, and the monitor task (id 2), the only
producer of status messages, is cancelled by `stop` before it can run. -/
theorem C2_counterexample :
    (stop demoState demoDb "t1").2.2.2 = .ok ()
    ∧ ((stop demoState demoDb "t1").2.2.1.filter
        (fun m => m.type = "status")).length = 0
    ∧ 2 ∈ (stop demoState demoDb "t1").1.cancelled :=
  ⟨by decide, by decide, by decide⟩

/-- C2 (amended): after a session reaches Stopped by natural exit,
exactly one final status message carrying the exit code is broadcast,
it follows every stdout/stderr message of the session, and the session
entry leaves `active_terminals` exactly once — a subsequent `stop()`
fails with `NotFound` and changes nothing. When the session is stopped
by `stop()` instead, removal and the `NotFound` on a second call behave
the same, but no final status message is broadcast at all: `stop`
cancels the monitor before it can emit one. -/
theorem C2_stopped_lifecycle (st : TM) (db : Db) (terminal_id : String)
    (pid : Nat) (stdoutLines stderrLines : List String) (exit_code : Int)
    (hact : lookupA st.active_terminals terminal_id = some pid) :
    ((naturalExitRun st db terminal_id stdoutLines stderrLines
        exit_code).2.2.filter (fun m => m.type = "status")).length = 1
    ∧ (naturalExitRun st db terminal_id stdoutLines stderrLines
        exit_code).2.2.getLast? = some (statusMessage terminal_id exit_code)
    ∧ lookupA (naturalExitRun st db terminal_id stdoutLines stderrLines
        exit_code).1.active_terminals terminal_id = none
    ∧ stop (naturalExitRun st db terminal_id stdoutLines stderrLines
          exit_code).1
        (naturalExitRun st db terminal_id stdoutLines stderrLines
          exit_code).2.1 terminal_id
      = ((naturalExitRun st db terminal_id stdoutLines stderrLines
            exit_code).1,
          (naturalExitRun st db terminal_id stdoutLines stderrLines
            exit_code).2.1, [], .error .NotFound)
    ∧ (stop st db terminal_id).2.2.1 = []
    ∧ (stop st db terminal_id).2.2.2 = .ok ()
    ∧ lookupA (stop st db terminal_id).1.active_terminals terminal_id = none
    ∧ stop (stop st db terminal_id).1 (stop st db terminal_id).2.1
        terminal_id
      = ((stop st db terminal_id).1, (stop st db terminal_id).2.1, [],
          .error .NotFound) := by
  have hpumps : ∀ m ∈ captureOutput terminal_id stdoutLines "stdout"
        ++ captureOutput terminal_id stderrLines "stderr",
      ¬ (m.type = "status") := by
    intro m hm hstat
    rcases List.mem_append.mp hm with h | h
    · have := (captureOutput_fields terminal_id stdoutLines "stdout" m h).1
      rw [this] at hstat
      exact absurd hstat (by decide)
    · have := (captureOutput_fields terminal_id stderrLines "stderr" m h).1
      rw [this] at hstat
      exact absurd hstat (by decide)
  have hnil : (captureOutput terminal_id stdoutLines "stdout"
        ++ captureOutput terminal_id stderrLines "stderr").filter
      (fun m => m.type = "status") = [] := by
    rw [List.filter_eq_nil_iff]
    intro m hm
    simpa using hpumps m hm
  refine ⟨?_, ?_, ?_, ?_, ?_, ?_, ?_, ?_⟩
  · show ((captureOutput terminal_id stdoutLines "stdout"
        ++ captureOutput terminal_id stderrLines "stderr"
        ++ [statusMessage terminal_id exit_code]).filter
        (fun m => m.type = "status")).length = 1
    rw [List.filter_append, hnil]
    simp [statusMessage]
  · show (captureOutput terminal_id stdoutLines "stdout"
        ++ captureOutput terminal_id stderrLines "stderr"
        ++ [statusMessage terminal_id exit_code]).getLast?
      = some (statusMessage terminal_id exit_code)
    exact List.getLast?_concat _
  · exact lookupA_popA_self st.active_terminals terminal_id
  · exact stop_notfound _ _ _ (lookupA_popA_self st.active_terminals terminal_id)
  · simp only [stop, hact]
  · simp only [stop, hact]
  · rw [stop_active st db terminal_id pid hact]
    exact lookupA_popA_self st.active_terminals terminal_id
  · refine stop_notfound _ _ _ ?_
    rw [stop_active st db terminal_id pid hact]
    exact lookupA_popA_self st.active_terminals terminal_id

/-- Witness for C2 (amended) at the demo session printing `hello`. -/
theorem C2_witness :
    ((naturalExitRun demoState demoDb "t1" ["hello"] [] 0).2.2.filter
        (fun m => m.type = "status")).length = 1
    ∧ (naturalExitRun demoState demoDb "t1" ["hello"] [] 0).2.2.getLast?
        = some (statusMessage "t1" 0)
    ∧ lookupA (naturalExitRun demoState demoDb "t1" ["hello"] []
        0).1.active_terminals "t1" = none
    ∧ stop (naturalExitRun demoState demoDb "t1" ["hello"] [] 0).1
        (naturalExitRun demoState demoDb "t1" ["hello"] [] 0).2.1 "t1"
      = ((naturalExitRun demoState demoDb "t1" ["hello"] [] 0).1,
          (naturalExitRun demoState demoDb "t1" ["hello"] [] 0).2.1, [],
          .error .NotFound)
    ∧ (stop demoState demoDb "t1").2.2.1 = []
    ∧ (stop demoState demoDb "t1").2.2.2 = .ok ()
    ∧ lookupA (stop demoState demoDb "t1").1.active_terminals "t1" = none
    ∧ stop (stop demoState demoDb "t1").1 (stop demoState demoDb "t1").2.1
        "t1"
      = ((stop demoState demoDb "t1").1, (stop demoState demoDb "t1").2.1,
          [], .error .NotFound) :=
  C2_stopped_lifecycle demoState demoDb "t1" 42 ["hello"] [] 0 (by decide)

/-- C3 counterexample: on the natural-exit removal path the demo
session leaves `active_terminals`, yet none of its three background
tasks is cancelled and its task-handle entry survives in
`output_tasks` — the claim requires all three tasks cancelled and
reaped on every removal path, including natural exit. -/
theorem C3_counterexample :
    lookupA demoAfterExit.1.active_terminals "t1" = none
    ∧ demoAfterExit.1.cancelled = []
    ∧ lookupA demoAfterExit.1.output_tasks "t1" = some [0, 1, 2] :=
  ⟨by decide, by decide, by decide⟩

/-- C3 (amended): on the `stop()` path every recorded task of the
session is cancelled and its task-handle entry removed exactly as part
of the removal, and `cleanup()` cancels every recorded task of every
session; but on the natural-exit path the monitor removes the registry
entry without cancelling anything — `output_tasks` and the set of
cancelled tasks are untouched, the pumps stopping only at EOF. -/
theorem C3_task_cancellation (st : TM) (db : Db) (terminal_id : String)
    (pid : Nat) (tasks : List Nat) (fails : String → Bool) (exit_code : Int)
    (hact : lookupA st.active_terminals terminal_id = some pid)
    (htasks : lookupA st.output_tasks terminal_id = some tasks) :
    (∀ t ∈ tasks, t ∈ (stop st db terminal_id).1.cancelled)
    ∧ lookupA (stop st db terminal_id).1.output_tasks terminal_id = none
    ∧ lookupA (stop st db terminal_id).1.active_terminals terminal_id = none
    ∧ (∀ t ∈ allTasks st, t ∈ (cleanup st fails).cancelled)
    ∧ (monitorExit st db terminal_id exit_code).1.output_tasks
        = st.output_tasks
    ∧ (monitorExit st db terminal_id exit_code).1.cancelled = st.cancelled := by
  refine ⟨?_, ?_, ?_, ?_, rfl, rfl⟩
  · intro t ht
    simp only [stop, hact, htasks]
    simp only [List.mem_append]
    exact Or.inr ht
  · simp only [stop, hact, htasks]
    exact lookupA_popA_self st.output_tasks terminal_id
  · rw [stop_active st db terminal_id pid hact]
    exact lookupA_popA_self st.active_terminals terminal_id
  · intro t ht
    simp only [cleanup, List.mem_append]
    exact Or.inr ht

/-- Witness for C3 (amended) at the demo session: stopping cancels its
stdout pump task 0 and cleanup cancels it too. -/
theorem C3_witness :
    0 ∈ (stop demoState demoDb "t1").1.cancelled
    ∧ lookupA (stop demoState demoDb "t1").1.output_tasks "t1" = none
    ∧ lookupA (stop demoState demoDb "t1").1.active_terminals "t1" = none
    ∧ 0 ∈ (cleanup demoState (fun _ => false)).cancelled
    ∧ (monitorExit demoState demoDb "t1" 0).1.output_tasks
        = demoState.output_tasks
    ∧ (monitorExit demoState demoDb "t1" 0).1.cancelled
        = demoState.cancelled :=
  ⟨(C3_task_cancellation demoState demoDb "t1" 42 [0, 1, 2]
      (fun _ => false) 0 (by decide) (by decide)).1 0 (by decide),
    (C3_task_cancellation demoState demoDb "t1" 42 [0, 1, 2]
      (fun _ => false) 0 (by decide) (by decide)).2.1,
    (C3_task_cancellation demoState demoDb "t1" 42 [0, 1, 2]
      (fun _ => false) 0 (by decide) (by decide)).2.2.1,
    (C3_task_cancellation demoState demoDb "t1" 42 [0, 1, 2]
      (fun _ => false) 0 (by decide) (by decide)).2.2.2.1 0 (by decide),
    (C3_task_cancellation demoState demoDb "t1" 42 [0, 1, 2]
      (fun _ => false) 0 (by decide) (by decide)).2.2.2.2.1,
    (C3_task_cancellation demoState demoDb "t1" 42 [0, 1, 2]
      (fun _ => false) 0 (by decide) (by decide)).2.2.2.2.2⟩

/-- C4 counterexample: a stdout line with surrounding whitespace is
delivered stripped, not as the exact unmodified line the claim
requires. -/
theorem C4_counterexample :
    (captureOutput "t1" ["  hello  "] "stdout").map Message.line
      = [some "hello"]
    ∧ (captureOutput "t1" ["  hello  "] "stdout").map Message.line
      ≠ [some "  hello  "] :=
  ⟨by decide, by decide⟩

/-- C4 (amended): for every line the process writes, the pump delivers
an `OutputMessage` whose line field is that line stripped of leading
and trailing whitespace; lines blank after stripping are dropped; a
subscriber attached from the start receives the surviving lines in
production order (its queue not overflowing), each message tagged with
the pump's stream type and terminal id. -/
theorem C4_lines_delivered (terminal_id stream_type : String)
    (lines : List String)
    (hcap : (lines.filterMap processLine).length ≤ OUTPUT_QUEUE_SIZE) :
    (captureOutput terminal_id lines stream_type).map Message.line
      = (lines.filterMap processLine).map some
    ∧ pumpToQueue terminal_id lines stream_type []
      = captureOutput terminal_id lines stream_type
    ∧ ∀ m ∈ captureOutput terminal_id lines stream_type,
        m.type = stream_type ∧ m.terminal_id = terminal_id := by
  have hmap : (captureOutput terminal_id lines stream_type).map Message.line
      = (lines.filterMap processLine).map some := by
    clear hcap
    induction lines with
    | nil => rfl
    | cons l ls ih =>
      simp only [captureOutput] at ih ⊢
      cases h : processLine l with
      | none => simp [List.filterMap_cons, h, ih]
      | some d => simp [List.filterMap_cons, h, ih]
  refine ⟨hmap, ?_, captureOutput_fields _ _ _⟩
  have hlen : (captureOutput terminal_id lines stream_type).length
      = (lines.filterMap processLine).length := by
    simpa using congrArg List.length hmap
  unfold pumpToQueue
  rw [foldl_enqueue _ [] (by simpa [hlen] using hcap)]
  exact List.nil_append _

/-- Witness for C4 (amended): pumping three raw lines — one plain, one
padded with blanks, one whitespace-only — delivers the two stripped
non-blank lines in order. -/
theorem C4_witness :
    (captureOutput "t1" ["hello", "  spaced  ", " "] "stdout").map
        Message.line
      = (["hello", "  spaced  ", " "].filterMap processLine).map some
    ∧ pumpToQueue "t1" ["hello", "  spaced  ", " "] "stdout" []
      = captureOutput "t1" ["hello", "  spaced  ", " "] "stdout"
    ∧ (Message.mk "t1" "stdout" (some "spaced") none none).type = "stdout"
    ∧ (Message.mk "t1" "stdout" (some "spaced") none none).terminal_id
        = "t1" :=
  ⟨(C4_lines_delivered "t1" "stdout" ["hello", "  spaced  ", " "]
      (by decide)).1,
    (C4_lines_delivered "t1" "stdout" ["hello", "  spaced  ", " "]
      (by decide)).2.1,
    ((C4_lines_delivered "t1" "stdout" ["hello", "  spaced  ", " "]
      (by decide)).2.2 (Message.mk "t1" "stdout" (some "spaced") none none)
      (by decide)).1,
    ((C4_lines_delivered "t1" "stdout" ["hello", "  spaced  ", " "]
      (by decide)).2.2 (Message.mk "t1" "stdout" (some "spaced") none none)
      (by decide)).2⟩

/-- C5 counterexample: after the demo session's process has exited and
the monitor has finished (Scenario B), `get_status` returns a snapshot
with status `stopped` — not `NotFound` as the claim requires. -/
theorem C5_counterexample :
    get_status demoAfterExit.1 demoAfterExit.2.1 "t1"
      = .ok (StatusSnapshot.mk "t1" "p1" "w1" "stopped" none)
    ∧ get_status demoAfterExit.1 demoAfterExit.2.1 "t1"
      ≠ .error .NotFound :=
  ⟨by decide, by decide⟩

/-- C5 (amended): `get_status` consults the database, not the live
registry: it fails with `NotFound` exactly for ids with no database
row; after a session's natural exit the row remains with status
`stopped`, so a subsequent `get_status` returns that snapshot rather
than `NotFound`. -/
theorem C5_get_status (st : TM) (db : Db) (terminal_id : String)
    (t : DbTerminal) (hdb : lookupA db terminal_id = some t) :
    (∀ db2 : Db, lookupA db2 terminal_id = none →
        get_status st db2 terminal_id = .error .NotFound)
    ∧ get_status (monitorExit st db terminal_id 0).1
        (monitorExit st db terminal_id 0).2.1 terminal_id
      = .ok (StatusSnapshot.mk t.id t.project_id t.working_dir "stopped"
          none) := by
  constructor
  · intro db2 h2
    simp [get_status, h2]
  · simp only [monitorExit, hdb]
    simp [get_status, lookupA_setA_self, lookupA_popA_self]

/-- Witness for C5 (amended) at the demo session. -/
theorem C5_witness :
    get_status demoState [] "t1" = .error .NotFound
    ∧ get_status (monitorExit demoState demoDb "t1" 0).1
        (monitorExit demoState demoDb "t1" 0).2.1 "t1"
      = .ok (StatusSnapshot.mk "t1" "p1" "w1" "stopped" none) :=
  ⟨(C5_get_status demoState demoDb "t1"
      (DbTerminal.mk "t1" "p1" 42 "w1" "active") (by decide)).1 [] rfl,
    (C5_get_status demoState demoDb "t1"
      (DbTerminal.mk "t1" "p1" 42 "w1" "active") (by decide)).2⟩

/-- C6: `subscribe(id)` called on a session whose subscriber set
already contains `MaxSubscribersPerSession` queues fails with
`LimitExceeded` and does not add a queue (the state is returned
unchanged), so a session's subscriber count never exceeds
`MaxSubscribersPerSession`: a count at most the cap stays at most the
cap across any `subscribe` call. -/
theorem C6_subscriber_cap (st : TM) (terminal_id : String) (q : Nat)
    (hinv : ((lookupA st.subscribers terminal_id).getD []).length
      ≤ MAX_SUBSCRIBERS_PER_TERMINAL) :
    (((lookupA st.subscribers terminal_id).getD []).length
        = MAX_SUBSCRIBERS_PER_TERMINAL →
      subscribe st terminal_id q = (st, .error .LimitExceeded))
    ∧ ((lookupA (subscribe st terminal_id q).1.subscribers
        terminal_id).getD []).length ≤ MAX_SUBSCRIBERS_PER_TERMINAL := by
  constructor
  · intro hfull
    simp only [subscribe]
    rw [if_pos (le_of_eq hfull.symm)]
  · simp only [subscribe]
    by_cases hge : MAX_SUBSCRIBERS_PER_TERMINAL
        ≤ ((lookupA st.subscribers terminal_id).getD []).length
    · rw [if_pos hge]
      exact hinv
    · rw [if_neg hge]
      simp only [lookupA_setA_self, Option.getD_some]
      have h1 := insertQ_length ((lookupA st.subscribers terminal_id).getD []) q
      omega

/-- Witness for C6 at a session holding exactly five subscribers. -/
theorem C6_witness :
    (((lookupA (TM.mk [("t1", 42)] [("t1", [0, 1, 2])]
          [("t1", [10, 11, 12, 13, 14])] []).subscribers "t1").getD []).length
        = MAX_SUBSCRIBERS_PER_TERMINAL →
      subscribe (TM.mk [("t1", 42)] [("t1", [0, 1, 2])]
          [("t1", [10, 11, 12, 13, 14])] []) "t1" 15
        = (TM.mk [("t1", 42)] [("t1", [0, 1, 2])]
            [("t1", [10, 11, 12, 13, 14])] [], .error .LimitExceeded))
    ∧ ((lookupA (subscribe (TM.mk [("t1", 42)] [("t1", [0, 1, 2])]
          [("t1", [10, 11, 12, 13, 14])] []) "t1" 15).1.subscribers
          "t1").getD []).length ≤ MAX_SUBSCRIBERS_PER_TERMINAL :=
  C6_subscriber_cap
    (TM.mk [("t1", 42)] [("t1", [0, 1, 2])] [("t1", [10, 11, 12, 13, 14])] [])
    "t1" 15 (by decide)

/-- C7: `unsubscribe(id, queue)` is idempotent — a second call with the
same queue leaves the subscriber map exactly as the first call left it.
`unsubscribe` is a total function into `TM` (the source discards from
the set and raises nothing), so the second call is a no-op without an
error. -/
theorem C7_unsubscribe_idempotent (st : TM) (terminal_id : String) (q : Nat) :
    unsubscribe (unsubscribe st terminal_id q) terminal_id q
      = unsubscribe st terminal_id q := by
  unfold unsubscribe
  cases h : lookupA st.subscribers terminal_id with
  | none => simp [h]
  | some s => simp [h, lookupA_setA_self, setA_setA, filter_ne_idem]

/-- C8: when the OS fails to launch the requested process
(`create_subprocess_exec` raises `OSError`), `spawn` fails with
`SpawnFailure` and the manager state and database are exactly as they
were before the call — the failure happens before any registry insert. -/
theorem C8_spawn_failure_rollback (st : TM) (db : Db)
    (project_id working_dir : String) (env : SpawnEnv)
    (hcap : st.active_terminals.length < MAX_TERMINALS)
    (hcmd : env.commandAllowed = true) (hpath : env.pathValid = true)
    (hdir : env.dirExists = true) (hlaunch : env.launchOk = false) :
    spawn st db project_id working_dir env = (st, db, .error .SpawnFailure) := by
  unfold spawn
  rw [if_neg (by omega), if_neg (by simp [hcmd]), if_neg (by simp [hpath]),
    if_neg (by simp [hdir]), if_pos (by simp [hlaunch])]

/-- Witness for C8: a spawn whose launch fails from the empty state. -/
theorem C8_witness :
    spawn initTM [] "p1" "w1"
        (SpawnEnv.mk true true true false true "t9" 99 [6, 7, 8])
      = (initTM, [], .error .SpawnFailure) :=
  C8_spawn_failure_rollback initTM [] "p1" "w1"
    (SpawnEnv.mk true true true false true "t9" 99 [6, 7, 8])
    (by decide) rfl rfl rfl rfl

/-- C9: after `cleanup()` returns, the registry is empty — no session
entries, no subscriber sets, no task-handle entries — and every
background task recorded for any session has been cancelled, whatever
the per-session termination failures `fails` were during the sweep. -/
theorem C9_cleanup_empties (st : TM) (fails : String → Bool) :
    (cleanup st fails).active_terminals = []
    ∧ (cleanup st fails).subscribers = []
    ∧ (cleanup st fails).output_tasks = []
    ∧ ∀ t ∈ allTasks st, t ∈ (cleanup st fails).cancelled := by
  refine ⟨rfl, rfl, rfl, fun t ht => ?_⟩
  simp only [cleanup, List.mem_append]
  exact Or.inr ht

/-- Witness for C9: cleaning up the demo state (whose termination
fails) empties the registry and cancels its stdout-pump task 0. -/
theorem C9_witness :
    (cleanup demoState (fun _ => true)).active_terminals = []
    ∧ (cleanup demoState (fun _ => true)).subscribers = []
    ∧ (cleanup demoState (fun _ => true)).output_tasks = []
    ∧ 0 ∈ (cleanup demoState (fun _ => true)).cancelled :=
  ⟨(C9_cleanup_empties demoState (fun _ => true)).1,
    (C9_cleanup_empties demoState (fun _ => true)).2.1,
    (C9_cleanup_empties demoState (fun _ => true)).2.2.1,
    (C9_cleanup_empties demoState (fun _ => true)).2.2.2 0 (by decide)⟩

/-- C10: `subscribe(id)` performs no existence check against the
registry: for any manager state whatsoever — in particular one whose
`active_terminals` has no entry for the id, because it was never
spawned or already exited — a `subscribe` below the cap succeeds,
registers the queue under that id, and leaves `active_terminals` and
`output_tasks` untouched. -/
theorem C10_subscribe_no_existence_check (st : TM) (terminal_id : String)
    (q : Nat)
    (hcount : ((lookupA st.subscribers terminal_id).getD []).length
      < MAX_SUBSCRIBERS_PER_TERMINAL) :
    (subscribe st terminal_id q).2 = .ok q
    ∧ lookupA (subscribe st terminal_id q).1.subscribers terminal_id
        = some (insertQ ((lookupA st.subscribers terminal_id).getD []) q)
    ∧ (subscribe st terminal_id q).1.active_terminals = st.active_terminals
    ∧ (subscribe st terminal_id q).1.output_tasks = st.output_tasks := by
  simp only [subscribe]
  rw [if_neg (Nat.not_le.mpr hcount)]
  exact ⟨rfl, lookupA_setA_self st.subscribers terminal_id _, rfl, rfl⟩

/-- Witness for C10: subscribing to the id `ghost`, which was never
spawned, from the pristine manager state succeeds and registers the
queue. -/
theorem C10_witness :
    (subscribe initTM "ghost" 7).2 = .ok 7
    ∧ lookupA (subscribe initTM "ghost" 7).1.subscribers "ghost"
        = some (insertQ ((lookupA initTM.subscribers "ghost").getD []) 7)
    ∧ (subscribe initTM "ghost" 7).1.active_terminals
        = initTM.active_terminals
    ∧ (subscribe initTM "ghost" 7).1.output_tasks = initTM.output_tasks :=
  C10_subscribe_no_existence_check initTM "ghost" 7 (by decide)

end TerminalManager
